import Mathlib

/-!
Verification development for the essayflow job-orchestration backend.

The definitions below are a shallow embedding of src/backend/app/tasks.py,
src/backend/main.py, src/backend/app/schemas.py and src/backend/app/celery_app.py.
Redis is modelled as the per-job key space of one job (a record plus the
artifact slots the stage functions read and write); external LLM calls are
modelled by oracles that give, per call, either the returned text together
with its decoded structured form, or the exception raised by the resilient
wrapper.  Timestamps are a Nat parameter passed for datetime.utcnow().

schemas.py declares only eight JobStatus members, while tasks.py also
references JobStatus.PLANNING, JobStatus.WAITING_FOR_REVIEW and
JobStatus.REFINING; evaluating those attributes raises AttributeError at
runtime, which the affected stage embeddings model by jumping to their
exception handlers at the corresponding program point.
-/

/--
Job states.  schemas.py declares exactly PENDING, EXTRACTING, RESEARCHING,
WRITING, HUMANIZING, FORMATTING, COMPLETED and FAILED.  tasks.py
additionally references JobStatus.PLANNING, JobStatus.WAITING_FOR_REVIEW
and JobStatus.REFINING, which do not exist on this enumeration: evaluating
such an attribute raises AttributeError at runtime, modelled below by the
affected stages aborting into their failure handlers with attributeErrorMsg.
-/
inductive JobStatus where
  | pending
  | extracting
  | researching
  | writing
  | humanizing
  | formatting
  | completed
  | failed
deriving DecidableEq, Repr

/-- Settings bag stored under humanization_settings (schemas.py). -/
structure HumanizationSettings where
  intensity : ℚ
  preserve_citations : Bool
  vary_sentence_length : Bool
  add_transitional_phrases : Bool
deriving DecidableEq, Repr

/--
The job record stored under key job:{id}.  Fields that no modelled
operation reads (filename, file_path, file_type, created_at) are omitted;
all remaining keys written by the upload and import endpoints are kept so
that frame conditions are meaningful.
-/
structure JobRecord where
  job_id : String
  status : JobStatus
  progress : Nat
  message : Option String
  download_url : Option String
  error : Option String
  updated_at : Nat
  student_name : Option String
  course_name : Option String
  additional_prompt : Option String
  ref_image_count : Nat
  humanization_settings : HumanizationSettings
deriving DecidableEq, Repr

/-- Individual essay section (schemas.py EssaySection). -/
structure EssaySection where
  title : String
  content : String
  word_count : Option Nat
deriving DecidableEq, Repr

/-- Structured essay schema (schemas.py EssayOutput). -/
structure EssayOutput where
  title : String
  thesis_statement : String
  introduction : String
  body_sections : List EssaySection
  conclusion : String
  references : Option (List String)
  total_word_count : Option Nat
  academic_level : Option String
deriving DecidableEq, Repr

/-- A rendered output artifact: the data generate_pdf lays out into the document. -/
structure RenderedDoc where
  student_name : String
  course_name : String
  essay : EssayOutput
deriving DecidableEq, Repr

/--
The per-job slice of the Redis key space: job:{id}, job:{id}:content,
job:{id}:draft, job:{id}:humanized, job:{id}:pdf, job:{id}:docx.
Reference images are not stored here; the vision analysis of image i is
modelled directly by the oracle of process_document.
-/
structure JobStore where
  job : Option JobRecord
  content : Option String
  draft : Option EssayOutput
  humanized : Option EssayOutput
  pdf : Option RenderedDoc
  docx : Option RenderedDoc
deriving DecidableEq, Repr

/-- Python truthiness of an optional string: None and the empty string are falsy. -/
def truthyStr : Option String → Bool
  | some s => s != ""
  | none => false

/--
update_job_status (tasks.py lines 22-43): reads the job record; when the
record exists it overwrites status, progress and message, refreshes
updated_at, and overwrites download_url and error only when the given value
is truthy; when the record is absent it does nothing.  No validation of the
transition is performed.
-/
def update_job_status (st : JobStore) (status : JobStatus) (progress : Nat)
    (message : Option String) (download_url : Option String) (error : Option String)
    (now : Nat) : JobStore :=
  match st.job with
  | none => st
  | some j =>
    { st with job := some { j with
        status := status
        progress := progress
        message := message
        updated_at := now
        download_url := if truthyStr download_url then download_url else j.download_url
        error := if truthyStr error then error else j.error } }

/--
Classification of the exception raised by an attempted external call.
The python code classifies by substring search on str(e): rate_limit, the
literal 429, and (for the Claude helper only) overloaded.
-/
inductive ApiFailure where
  | rate_limit
  | http429
  | overloaded
  | other (msg : String)
deriving DecidableEq, Repr

/-- Result of one attempt of the external call: the returned text or the exception. -/
inductive AttemptResult where
  | ok (content : String)
  | err (f : ApiFailure)
deriving DecidableEq, Repr

/-- Printable form used when the wrapper re-raises the last failure. -/
def failureMsg : ApiFailure → String
  | .rate_limit => "rate_limit"
  | .http429 => "Error code: 429"
  | .overloaded => "overloaded"
  | .other msg => msg

/-- Retryable classifier of api_call_with_retry (tasks.py line 65). -/
def openaiRetryable : ApiFailure → Bool
  | .rate_limit => true
  | .http429 => true
  | _ => false

/-- Retryable classifier of claude_api_call_with_retry (tasks.py line 93). -/
def claudeRetryable : ApiFailure → Bool
  | .rate_limit => true
  | .http429 => true
  | .overloaded => true
  | _ => false

/-- Outcome of a full run of a retry helper. -/
inductive RetryResult where
  | returned (content : String)
  | raised (f : ApiFailure)
  | fellThrough
deriving DecidableEq, Repr

/--
Observable effects of one run of a retry helper: the final state of the
store, the returned value or raised exception, the number of attempts made,
the cumulative time slept, and the status updates published during waits.
-/
structure RetryRun where
  store : JobStore
  result : RetryResult
  attempts : Nat
  totalSleep : ℚ
  updates : List (JobStatus × Nat)
deriving Repr

/--
The retry loop shared verbatim by api_call_with_retry (tasks.py lines 51-72)
and claude_api_call_with_retry (lines 80-100), parameterised by the
retryable classifier.  fuel is the number of loop iterations remaining
(max_retries minus attempt); call attempt gives the result of the attempt
with that index; jitter attempt is the random.uniform(0,1) draw.  On a
retryable failure the code computes 2 ** attempt + jitter, publishes the
intermediate WRITING / 50 update, sleeps, and raises if this was the last
attempt; a non-retryable failure is re-raised at once.  When max_retries is
zero the loop body never runs and the python function returns None
(fellThrough).
-/
def retry_go (retryable : ApiFailure → Bool) (call : Nat → AttemptResult)
    (jitter : Nat → ℚ) (now : Nat) : Nat → Nat → JobStore → RetryRun
  | 0, _, st => { store := st, result := .fellThrough, attempts := 0, totalSleep := 0, updates := [] }
  | fuel + 1, attempt, st =>
    match call attempt with
    | .ok c => { store := st, result := .returned c, attempts := 1, totalSleep := 0, updates := [] }
    | .err f =>
      if retryable f then
        let w : ℚ := 2 ^ attempt + jitter attempt
        let st' := update_job_status st .writing 50
          (some ("Rate limited, waiting " ++ toString w.floor ++ "s...")) none none now
        if fuel = 0 then
          { store := st', result := .raised f, attempts := 1, totalSleep := w,
            updates := [(.writing, 50)] }
        else
          let r := retry_go retryable call jitter now fuel (attempt + 1) st'
          { store := r.store, result := r.result, attempts := r.attempts + 1,
            totalSleep := w + r.totalSleep, updates := (.writing, 50) :: r.updates }
      else
        { store := st, result := .raised f, attempts := 1, totalSleep := 0, updates := [] }

/-- api_call_with_retry (tasks.py lines 45-72), max_retries defaulting to 5 at call sites. -/
def api_call_with_retry (st : JobStore) (call : Nat → AttemptResult) (jitter : Nat → ℚ)
    (max_retries : Nat) (now : Nat) : RetryRun :=
  retry_go openaiRetryable call jitter now max_retries 0 st

/-- claude_api_call_with_retry (tasks.py lines 75-100). -/
def claude_api_call_with_retry (st : JobStore) (call : Nat → AttemptResult) (jitter : Nat → ℚ)
    (max_retries : Nat) (now : Nat) : RetryRun :=
  retry_go claudeRetryable call jitter now max_retries 0 st

/-- Celery task names a stage dispatch can name (tasks.py @celery_app.task). -/
inductive TaskName where
  | processDoc
  | generateE
  | humanizeE
  | refineE
  | structureE
  | generatePdf
deriving DecidableEq, Repr

/--
One structured-output call made through a retry helper, seen from the stage:
either the wrapper returned text raw whose json.loads decoding is parsed
(none when the text is not valid JSON matching the expected shape), or the
wrapper raised err (a fatal error or exhausted retries).  The coupling
between raw and parsed is the external JSON semantics and is left abstract.
-/
inductive ApiReply (α : Type) where
  | success (parsed : Option α) (raw : String)
  | raised (err : String)

/-- Final outcome of one stage task: a normal return or a re-raised exception. -/
inductive StageResult where
  | success
  | failed (err : String)
deriving DecidableEq, Repr

/--
Observable effects of one run of a stage task: the final store, the list of
status and progress writes to the job record in order (the update_job_status
calls and, for generate_pdf, the final direct record write), the stage
dispatches issued via .delay, and the outcome.
-/
structure StageOut where
  store : JobStore
  trace : List (JobStatus × Nat)
  dispatch : List TaskName
  result : StageResult

/-- Message of the TypeError raised by json.loads(None) when the job record is absent. -/
def typeErrorMsg : String :=
  "the JSON object must be str, bytes or bytearray, not NoneType"

/-- Stand-in for the message of the json.JSONDecodeError raised on unparseable text. -/
def jsonDecodeErrorMsg : String := "Expecting value: line 1 column 1 (char 0)"

/--
Stand-in for str(e) of the AttributeError raised by referencing a member
that is absent from the JobStatus enumeration: the enum metaclass raises
AttributeError(name), so the printable form is the bare member name (the
exact phrasing varies across Python versions and no claim depends on it).
-/
def attributeErrorMsg (name : String) : String := name

/--
Failure handler of process_document (tasks.py line 173):
update_job_status(job_id, FAILED, 0, message) with the message passed
positionally, then re-raise.
-/
def processFail (st : JobStore) (tr : List (JobStatus × Nat)) (e : String) (now : Nat) : StageOut :=
  { store := update_job_status st .failed 0 (some ("Processing failed: " ++ e)) none none now
    trace := tr ++ [(.failed, 0)]
    dispatch := []
    result := .failed e }

/--
Failure handler shared by generate_essay (line 459) and humanize_essay
(line 562): update_job_status(job_id, FAILED, 0, error=str(e)); the message
argument is left at None, the error keyword is set.
-/
def genFail (st : JobStore) (tr : List (JobStatus × Nat)) (e : String) (now : Nat) : StageOut :=
  { store := update_job_status st .failed 0 none none (some e) now
    trace := tr ++ [(.failed, 0)]
    dispatch := []
    result := .failed e }

/-- Failure handler of refine_essay (line 641): FAILED, 0, message Refinement failed. -/
def refineFail (st : JobStore) (tr : List (JobStatus × Nat)) (e : String) (now : Nat) : StageOut :=
  { store := update_job_status st .failed 0 (some ("Refinement failed: " ++ e)) none none now
    trace := tr ++ [(.failed, 0)]
    dispatch := []
    result := .failed e }

/-- Failure handler of structure_essay (line 729): FAILED, 0, message Import failed. -/
def structFail (st : JobStore) (tr : List (JobStatus × Nat)) (e : String) (now : Nat) : StageOut :=
  { store := update_job_status st .failed 0 (some ("Import failed: " ++ e)) none none now
    trace := tr ++ [(.failed, 0)]
    dispatch := []
    result := .failed e }

/-- Failure handler of generate_pdf (line 942): FAILED, 0, message Failed to generate PDF. -/
def pdfFail (st : JobStore) (tr : List (JobStatus × Nat)) (e : String) (now : Nat) : StageOut :=
  { store := update_job_status st .failed 0 (some ("Failed to generate PDF: " ++ e)) none none now
    trace := tr ++ [(.failed, 0)]
    dispatch := []
    result := .failed e }

/--
generate_essay (tasks.py lines 177-460).  The first statement of the try
block (line 184) evaluates JobStatus.PLANNING, a member absent from the
schemas.py enumeration, so an AttributeError is raised before any status
update, artifact read or API call happens; the handler at line 459 runs
update_job_status(job_id, FAILED, 0, error=str(e)) and re-raises.  The
stage therefore never stores a draft and never dispatches humanize_essay.
-/
def generate_essay (st0 : JobStore) (now : Nat) : StageOut :=
  genFail st0 [] (attributeErrorMsg "PLANNING") now

/--
process_document (tasks.py lines 103-174): publishes EXTRACTING 10, reads
the job record, analyses each stored reference image (vision i is the
description produced for image i; none when the image is absent or its
analysis raised, which the inner handler swallows), stores the combined
content, publishes EXTRACTING 20 and chains generate_essay.  When the job
record is absent, json.loads(None) raises and the handler runs (the FAILED
update finds no record and writes nothing).
-/
def process_document (st0 : JobStore) (extracted_text : String)
    (vision : Nat → Option String) (now : Nat) : StageOut :=
  let st1 := update_job_status st0 .extracting 10
    (some "Processing extracted text...") none none now
  let tr1 : List (JobStatus × Nat) := [(.extracting, 10)]
  match st1.job with
  | none => processFail st1 tr1 typeErrorMsg now
  | some job =>
    let ref_image_count := job.ref_image_count
    let steptr :=
      if ref_image_count > 0 then
        (update_job_status st1 .extracting 15
          (some ("Analyzing " ++ toString ref_image_count ++ " reference images...")) none none now,
         tr1 ++ [(.extracting, 15)])
      else (st1, tr1)
    let image_analysis_text :=
      (List.range ref_image_count).foldl
        (fun acc i =>
          match vision i with
          | some desc =>
            acc ++ "\n\n[Analysis of Reference Image " ++ toString (i + 1) ++ "]:\n" ++ desc
          | none => acc)
        ""
    let full_content := extracted_text ++ "\n\n=== REFERENCE IMAGES ANALYSIS ===" ++ image_analysis_text
    let st2 := { steptr.1 with content := some full_content }
    let st3 := update_job_status st2 .extracting 20 (some "Text processing complete") none none now
    { store := st3
      trace := steptr.2 ++ [(.extracting, 20)]
      dispatch := [.generateE]
      result := .success }

/--
The essay content sent to the rewriting call of humanize_essay (tasks.py
line 493): the draft dictionary with the references key removed.
-/
def humanizeRequestContent (d : EssayOutput) : EssayOutput :=
  { d with references := none }

/--
Oracle for the rewriting call of humanize_essay.  The inline retry loop
(tasks.py lines 520-542) is abstracted exactly like the retry helpers: the
reply is the text finally returned, or the exception finally raised; its
intermediate HUMANIZING 75 updates are outside this trace model.  parsed is
the json.loads decoding of the text, validated against the essay schema.
-/
structure HumOracle where
  reply : ApiReply EssayOutput

/--
humanize_essay (tasks.py lines 463-563): publishes HUMANIZING 70, reads the
draft (ValueError when absent) and the job record, strips the references
from the content sent to the rewriting call, and when the reply parses it
re-attaches the original draft references and stores the result under the
humanized key (line 553).  The json.loads of the reply (line 545) is not
guarded: an unparseable reply escapes to the outer handler.  The completion
update at line 557 then evaluates JobStatus.WAITING_FOR_REVIEW, a member
absent from the schemas.py enumeration, so even a fully successful run
raises AttributeError right after persisting the humanized artifact; the
handler at line 562 marks the job FAILED at progress 0 with error=str(e)
and re-raises.  The stage never returns success.  The inline retry loop
(lines 520-542) is abstracted by the oracle exactly like the retry helpers.
-/
def humanize_essay (st0 : JobStore) (o : HumOracle) (now : Nat) : StageOut :=
  let st1 := update_job_status st0 .humanizing 70
    (some "Humanizing essay content...") none none now
  let tr1 : List (JobStatus × Nat) := [(.humanizing, 70)]
  match st1.draft with
  | none => genFail st1 tr1 "No draft found" now
  | some draft =>
    match st1.job with
    | none => genFail st1 tr1 typeErrorMsg now
    | some job =>
      let _settings := job.humanization_settings
      let original_references := draft.references
      let _sent := humanizeRequestContent draft
      match o.reply with
      | .raised e => genFail st1 tr1 e now
      | .success parsed _raw =>
        match parsed with
        | none => genFail st1 tr1 jsonDecodeErrorMsg now
        | some humanized0 =>
          let humanized := { humanized0 with references := original_references }
          let st2 := { st1 with humanized := some humanized }
          genFail st2 tr1 (attributeErrorMsg "WAITING_FOR_REVIEW") now

/--
refine_essay (tasks.py lines 567-642).  The first statement of the try
block (line 573) evaluates JobStatus.REFINING, a member absent from the
schemas.py enumeration, so an AttributeError is raised before the stored
essay is read and before any API call; the handler at line 641 runs
update_job_status(job_id, FAILED, 0, "Refinement failed: " + str(e)) and
re-raises.  The humanized essay is left untouched.
-/
def refine_essay (st0 : JobStore) (_instructions : String) (now : Nat) : StageOut :=
  refineFail st0 [] (attributeErrorMsg "REFINING") now

/--
structure_essay (tasks.py lines 645-730).  The first statement of the try
block (line 655) evaluates JobStatus.PLANNING, a member absent from the
schemas.py enumeration, so an AttributeError is raised before the length
check, the API call and the store of the structured essay; the handler at
line 729 runs update_job_status(job_id, FAILED, 0, "Import failed: " +
str(e)) and re-raises.  The later references to JobStatus.REFINING (line
719) and JobStatus.WAITING_FOR_REVIEW (line 724) are unreachable, and the
stage never stores anything or dispatches refine_essay.
-/
def structure_essay (st0 : JobStore) (_raw_text : String)
    (_refinement_instructions : Option String) (now : Nat) : StageOut :=
  structFail st0 [] (attributeErrorMsg "PLANNING") now

/--
Oracle for generate_pdf: whether the reportlab document build and the
python-docx document build complete without raising.
-/
structure PdfOracle where
  pdf_render_ok : Bool
  docx_render_ok : Bool

/-- Python a or default for an optional string field: None and empty fall to default. -/
def orDefault (v : Option String) (d : String) : String :=
  match v with
  | some s => if s = "" then d else s
  | none => d

/--
generate_pdf (tasks.py lines 733-943): publishes FORMATTING 90, reads the
humanized essay (ValueError when absent) and the job record, renders and
stores the PDF artifact, then the DOCX artifact, and finally rewrites the
job record read at the start of the task with status COMPLETED, progress
100, the download url and a fresh timestamp, keeping its other fields (a
direct record write, recorded in the trace as its status and progress
pair).  A rendering exception at either build aborts through pdfFail.
Every JobStatus member this stage references exists on the schemas.py
enumeration, so no AttributeError arises here.
-/
def generate_pdf (st0 : JobStore) (o : PdfOracle) (now : Nat) : StageOut :=
  let st1 := update_job_status st0 .formatting 90
    (some "Generating PDF document...") none none now
  let tr1 : List (JobStatus × Nat) := [(.formatting, 90)]
  match st1.humanized with
  | none => pdfFail st1 tr1 "No humanized essay found" now
  | some essay =>
    match st1.job with
    | none => pdfFail st1 tr1 typeErrorMsg now
    | some job =>
      let student_name := orDefault job.student_name "Student Name"
      let course_name := orDefault job.course_name "Course Name"
      if o.pdf_render_ok then
        let st2 := { st1 with pdf := some { student_name, course_name, essay } }
        if o.docx_render_ok then
          let st3 := { st2 with docx := some { student_name, course_name, essay } }
          let finalJob := { job with
            status := .completed
            progress := 100
            message := some "Essay generation complete!"
            download_url := some ("/api/download/" ++ job.job_id)
            updated_at := now }
          let st4 := { st3 with job := some finalJob }
          { store := st4, trace := tr1 ++ [(.completed, 100)], dispatch := [], result := .success }
        else pdfFail st2 tr1 "docx build error" now
      else pdfFail st1 tr1 "pdf build error" now

/--
Job record created by the upload endpoint (main.py lines 204-225): status
PENDING, progress 0, no download url or error, the display metadata and
settings from the form.
-/
def uploadJobRecord (job_id : String) (student_name course_name additional_prompt : Option String)
    (ref_image_count : Nat) (humanization_intensity : ℚ) (now : Nat) : JobRecord :=
  { job_id := job_id
    status := .pending
    progress := 0
    message := some "Job created, waiting to start..."
    download_url := none
    error := none
    updated_at := now
    student_name := student_name
    course_name := course_name
    additional_prompt := additional_prompt
    ref_image_count := ref_image_count
    humanization_settings :=
      { intensity := humanization_intensity
        preserve_citations := true
        vary_sentence_length := true
        add_transitional_phrases := true } }

/--
Store state right after the upload endpoint (main.py upload_file): only the
job record exists; the content key is written later by process_document.
The endpoint then dispatches process_document with the extracted text.
-/
def upload_file_store (job_id : String)
    (student_name course_name additional_prompt : Option String)
    (ref_image_count : Nat) (humanization_intensity : ℚ) (now : Nat) : JobStore :=
  { job := some (uploadJobRecord job_id student_name course_name additional_prompt
      ref_image_count humanization_intensity now)
    content := none
    draft := none
    humanized := none
    pdf := none
    docx := none }

/--
Store state right after the import endpoint (main.py import_essay): a
PENDING job record with placeholder display metadata and the pasted or
extracted text under the content key.  The endpoint then dispatches
structure_essay.
-/
def import_essay_store (job_id : String) (extracted_text : String) (now : Nat) : JobStore :=
  { job := some
      { job_id := job_id
        status := .pending
        progress := 0
        message := some "Importing essay..."
        download_url := none
        error := none
        updated_at := now
        student_name := some "Student"
        course_name := some "Course"
        additional_prompt := none
        ref_image_count := 0
        humanization_settings :=
          { intensity := 1 / 2
            preserve_citations := true
            vary_sentence_length := true
            add_transitional_phrases := true } }
    content := some extracted_text
    draft := none
    humanized := none
    pdf := none
    docx := none }

/-- HTTP outcome of the refine and finalize endpoints. -/
inductive EndpointResp where
  | notFound
  | accepted
deriving DecidableEq, Repr

/--
refine_essay_endpoint (main.py lines 488-500): checks only that the job
record exists; when it does, unconditionally dispatches refine_essay and
answers 200, otherwise answers 404.  The job status is never consulted.
-/
def refine_essay_endpoint (st : JobStore) : EndpointResp × List TaskName :=
  if st.job.isSome then (.accepted, [.refineE]) else (.notFound, [])

/--
finalize_essay endpoint (main.py lines 503-515): checks only that the job
record exists; when it does, unconditionally dispatches generate_pdf and
answers 200, otherwise answers 404.
-/
def finalize_essay_endpoint (st : JobStore) : EndpointResp × List TaskName :=
  if st.job.isSome then (.accepted, [.generatePdf]) else (.notFound, [])

/-- One stage dispatch message together with its payload and oracle. -/
inductive StageOp where
  | processDoc (extracted_text : String) (vision : Nat → Option String) (now : Nat)
  | generateE (now : Nat)
  | humanizeE (o : HumOracle) (now : Nat)
  | refineE (instructions : String) (now : Nat)
  | structureE (raw_text : String) (instr : Option String) (now : Nat)
  | generatePdf (o : PdfOracle) (now : Nat)

/-- Execute one stage dispatch against the store. -/
def runOp (s : JobStore) : StageOp → StageOut
  | .processDoc t v now => process_document s t v now
  | .generateE now => generate_essay s now
  | .humanizeE o now => humanize_essay s o now
  | .refineE instr now => refine_essay s instr now
  | .structureE raw instr now => structure_essay s raw instr now
  | .generatePdf o now => generate_pdf s o now

/-- The celery task a stage dispatch message names. -/
def opName : StageOp → TaskName
  | .processDoc .. => .processDoc
  | .generateE .. => .generateE
  | .humanizeE .. => .humanizeE
  | .refineE .. => .refineE
  | .structureE .. => .structureE
  | .generatePdf .. => .generatePdf

/--
Store states reachable for one job: an initial state created by the upload
or import endpoint, followed by any sequence of stage executions (with
arbitrary payloads and oracle outcomes, covering both the chained
dispatches and re-deliveries or endpoint-triggered dispatches).
-/
inductive Reachable : JobStore → Prop
  | upload (job_id : String) (student_name course_name additional_prompt : Option String)
      (ref_image_count : Nat) (humanization_intensity : ℚ) (now : Nat) :
      Reachable (upload_file_store job_id student_name course_name additional_prompt
        ref_image_count humanization_intensity now)
  | importE (job_id : String) (extracted_text : String) (now : Nat) :
      Reachable (import_essay_store job_id extracted_text now)
  | step (s : JobStore) (op : StageOp) : Reachable s → Reachable (runOp s op).store

/--
State of the queueing system for one job: the store, the dispatched-but-not-
started task messages, and the tasks currently executing on workers.
-/
structure SysState where
  store : JobStore
  queued : List TaskName
  running : List TaskName

/--
Interleaving semantics of the celery dispatch layer for one job.  start
moves a queued message onto a worker; finish completes a running task,
applying its store effect and enqueueing the tasks it dispatches; the two
endpoint constructors model POST refine and POST finalize, which enqueue
whenever the job record exists, whatever the status and whatever is
running.  The ep flag switches the client-facing endpoint dispatches on or
off; with ep false only the internal stage chaining remains.
-/
inductive SysStep (ep : Bool) : SysState → SysState → Prop
  | start (s : SysState) (t : TaskName) (l r : List TaskName) :
      s.queued = l ++ t :: r →
      SysStep ep s { s with queued := l ++ r, running := t :: s.running }
  | finish (s : SysState) (t : TaskName) (l r : List TaskName) (op : StageOp) :
      s.running = l ++ t :: r → opName op = t →
      SysStep ep s { store := (runOp s.store op).store
                     queued := s.queued ++ (runOp s.store op).dispatch
                     running := l ++ r }
  | refineDispatch (s : SysState) :
      ep = true → s.store.job.isSome = true →
      SysStep ep s { s with queued := s.queued ++ [.refineE] }
  | finalizeDispatch (s : SysState) :
      ep = true → s.store.job.isSome = true →
      SysStep ep s { s with queued := s.queued ++ [.generatePdf] }

/-- Reflexive-transitive closure of SysStep. -/
inductive SysReachable (ep : Bool) : SysState → SysState → Prop
  | refl (s : SysState) : SysReachable ep s s
  | tail (s t u : SysState) : SysReachable ep s t → SysStep ep t u → SysReachable ep s u

/-- Terminal job states (spec section 4.1): COMPLETED and FAILED. -/
def isTerminal : JobStatus → Bool
  | .completed => true
  | .failed => true
  | _ => false

/--
One consecutive pair of status updates satisfies the monotonicity claim
when either endpoint is terminal or the progress does not decrease.
-/
def pairOk (a b : JobStatus × Nat) : Bool :=
  isTerminal a.1 || isTerminal b.1 || decide (a.2 ≤ b.2)

/-- The claimed invariant over a sequence of status updates. -/
def progressNonDecreasing : List (JobStatus × Nat) → Bool
  | [] => true
  | [_] => true
  | a :: b :: rest => pairOk a b && progressNonDecreasing (b :: rest)

/-- The status and progress of the job record, the pair every update writes. -/
def jobSP (st : JobStore) : Option (JobStatus × Nat) :=
  st.job.map (fun j => (j.status, j.progress))

/-- Default humanization settings, intensity one half. -/
def cSettings : HumanizationSettings :=
  { intensity := 1 / 2
    preserve_citations := true
    vary_sentence_length := true
    add_transitional_phrases := true }

/-- Concrete job record used by witnesses: mid-pipeline, EXTRACTING at 20. -/
def cJobExtracting : JobRecord :=
  { job_id := "job-1", status := .extracting, progress := 20
    message := some "Text processing complete"
    download_url := none, error := none, updated_at := 0
    student_name := none, course_name := none, additional_prompt := none
    ref_image_count := 0, humanization_settings := cSettings }

/-- Concrete job record whose job already FAILED, progress 85 preserved from before. -/
def cJobFailed : JobRecord :=
  { job_id := "job-2", status := .failed, progress := 85, message := none
    download_url := none, error := some "boom", updated_at := 0
    student_name := none, course_name := none, additional_prompt := none
    ref_image_count := 0, humanization_settings := cSettings }

/-- Concrete job record of a COMPLETED job. -/
def cJobCompleted : JobRecord :=
  { job_id := "job-3", status := .completed, progress := 100
    message := some "Essay generation complete!"
    download_url := some "/api/download/job-3", error := none, updated_at := 0
    student_name := some "A", course_name := some "B", additional_prompt := none
    ref_image_count := 0, humanization_settings := cSettings }

/-- Concrete job record mid-humanization, progress 85. -/
def cJobHumanizing : JobRecord :=
  { job_id := "job-4", status := .humanizing, progress := 85, message := none
    download_url := none, error := none, updated_at := 0
    student_name := none, course_name := none, additional_prompt := none
    ref_image_count := 0, humanization_settings := cSettings }

/-- Concrete essay artifact with two references. -/
def cEssay : EssayOutput :=
  { title := "T", thesis_statement := "th", introduction := "one two three"
    body_sections := [{ title := "S1", content := "body text here", word_count := some 3 }]
    conclusion := "the end", references := some ["Ref A (2020)", "Ref B (2021)"]
    total_word_count := some 9, academic_level := some "undergraduate" }

/-- Concrete essay as an external rewriting call might return it: other references. -/
def cEssayRewritten : EssayOutput :=
  { title := "T", thesis_statement := "th", introduction := "one. two! three"
    body_sections := [{ title := "S1", content := "livelier body text", word_count := some 3 }]
    conclusion := "quite the end", references := some ["Spurious Ref (1999)"]
    total_word_count := some 9, academic_level := some "undergraduate" }

/-- Concrete store mid-pipeline: EXTRACTING job with extracted content. -/
def cStoreGen : JobStore :=
  { job := some cJobExtracting, content := some "assignment text", draft := none
    humanized := none, pdf := none, docx := none }

/-- Concrete store with a FAILED job and extracted content. -/
def cStoreFailed : JobStore :=
  { job := some cJobFailed, content := some "assignment text", draft := none
    humanized := none, pdf := none, docx := none }

/-- Concrete store of a COMPLETED job with all artifacts present. -/
def cStoreCompleted : JobStore :=
  { job := some cJobCompleted, content := some "assignment text", draft := some cEssay
    humanized := some cEssay
    pdf := some { student_name := "A", course_name := "B", essay := cEssay }
    docx := some { student_name := "A", course_name := "B", essay := cEssay } }

/-- Concrete store mid-humanization with a draft artifact present. -/
def cStoreDraft : JobStore :=
  { job := some cJobHumanizing, content := some "assignment text", draft := some cEssay
    humanized := none, pdf := none, docx := none }

/-- Concrete store mid-humanization with no draft artifact. -/
def cStoreNoDraft : JobStore :=
  { job := some cJobHumanizing, content := some "assignment text", draft := none
    humanized := none, pdf := none, docx := none }

/-- Concrete imported text longer than the 50 character minimum. -/
def cImportText : String :=
  "This imported essay text is certainly longer than fifty characters in total."

/-- Concrete attempt sequence: two rate limits, then success. -/
def cCall : Nat → AttemptResult :=
  fun n => if n < 2 then .err .rate_limit else .ok "out"

/-- Concrete attempt sequence for the Claude helper: two overload errors, then success. -/
def cCallOverloaded : Nat → AttemptResult :=
  fun n => if n < 2 then .err .overloaded else .ok "out"

/-- Concrete jitter draw, constantly one half. -/
def cJitter : Nat → ℚ := fun _ => 1 / 2
theorem update_job_status_job_eq (st : JobStore) (status : JobStatus) (progress : Nat)
    (message download_url error : Option String) (now : Nat) (j : JobRecord)
    (h : st.job = some j) :
    (update_job_status st status progress message download_url error now).job =
      some { j with
        status := status
        progress := progress
        message := message
        updated_at := now
        download_url := if truthyStr download_url then download_url else j.download_url
        error := if truthyStr error then error else j.error } := by
  simp [update_job_status, h]

theorem update_job_status_isSome (st : JobStore) (status : JobStatus) (progress : Nat)
    (message download_url error : Option String) (now : Nat) :
    (update_job_status st status progress message download_url error now).job.isSome =
      st.job.isSome := by
  unfold update_job_status
  cases h : st.job <;> simp [h]

theorem update_job_status_artifacts (st : JobStore) (status : JobStatus) (progress : Nat)
    (message download_url error : Option String) (now : Nat) :
    (update_job_status st status progress message download_url error now).content = st.content ∧
    (update_job_status st status progress message download_url error now).draft = st.draft ∧
    (update_job_status st status progress message download_url error now).humanized = st.humanized ∧
    (update_job_status st status progress message download_url error now).pdf = st.pdf ∧
    (update_job_status st status progress message download_url error now).docx = st.docx := by
  unfold update_job_status
  cases h : st.job <;> simp

theorem jobSP_update (st : JobStore) (status : JobStatus) (progress : Nat)
    (message download_url error : Option String) (now : Nat) :
    jobSP (update_job_status st status progress message download_url error now) =
      st.job.map (fun _ => (status, progress)) := by
  unfold jobSP update_job_status
  cases h : st.job <;> simp [h]

theorem mapConst_eq_of_isSome_eq {α β : Type} (a b : Option α) (x : β)
    (h : a.isSome = b.isSome) : a.map (fun _ => x) = b.map (fun _ => x) := by
  cases a <;> cases b <;> simp_all

theorem update_job_status_none (st : JobStore) (h : st.job = none)
    (status : JobStatus) (progress : Nat) (message download_url error : Option String)
    (now : Nat) :
    update_job_status st status progress message download_url error now = st := by
  simp [update_job_status, h]

theorem update_job_status_some (st : JobStore) (j : JobRecord) (h : st.job = some j)
    (status : JobStatus) (progress : Nat) (message download_url error : Option String)
    (now : Nat) :
    update_job_status st status progress message download_url error now =
      { st with job := some { j with
          status := status
          progress := progress
          message := message
          updated_at := now
          download_url := if truthyStr download_url then download_url else j.download_url
          error := if truthyStr error then error else j.error } } := by
  simp [update_job_status, h]

theorem update_job_status_draft_eq (st : JobStore) (status : JobStatus) (progress : Nat)
    (message download_url error : Option String) (now : Nat) :
    (update_job_status st status progress message download_url error now).draft = st.draft := by
  unfold update_job_status
  cases st.job <;> rfl

theorem update_job_status_humanized_eq (st : JobStore) (status : JobStatus) (progress : Nat)
    (message download_url error : Option String) (now : Nat) :
    (update_job_status st status progress message download_url error now).humanized =
      st.humanized := by
  unfold update_job_status
  cases st.job <;> rfl

theorem jobSP_isSome (st : JobStore) (p : JobStatus × Nat) (h : jobSP st = some p) :
    st.job.isSome = true := by
  unfold jobSP at h
  cases hj : st.job <;> simp [hj] at h ⊢

theorem map_status_eq (st : JobStore) :
    st.job.map JobRecord.status = (jobSP st).map Prod.fst := by
  cases h : st.job <;> simp [jobSP, h]

theorem retry_go_spec (retryable : ApiFailure → Bool) (call : Nat → AttemptResult)
    (jitter : Nat → ℚ) (now : Nat) (s : String)
    (hrb : retryable .rate_limit = true) :
    ∀ (k fuel a : Nat) (st : JobStore),
      k < fuel →
      (∀ i, i < k → call (a + i) = .err .rate_limit) →
      call (a + k) = .ok s →
      (retry_go retryable call jitter now fuel a st).result = .returned s ∧
      (retry_go retryable call jitter now fuel a st).attempts = k + 1 ∧
      (retry_go retryable call jitter now fuel a st).totalSleep =
        Finset.sum (Finset.range k) (fun i => (2 : ℚ) ^ (a + i) + jitter (a + i)) := by
  intro k
  induction k with
  | zero =>
    intro fuel a st hk hfail hok
    cases fuel with
    | zero => omega
    | succ f =>
      have hca : call a = .ok s := by simpa using hok
      simp [retry_go, hca]
  | succ k ih =>
    intro fuel a st hk hfail hok
    cases fuel with
    | zero => omega
    | succ f =>
      have h0 : call a = .err .rate_limit := by simpa using hfail 0 (by omega)
      have hf : ¬ f = 0 := by omega
      have hfail' : ∀ i, i < k → call (a + 1 + i) = .err .rate_limit := by
        intro i hi
        have := hfail (i + 1) (by omega)
        rwa [show a + (i + 1) = a + 1 + i by omega] at this
      have hok' : call (a + 1 + k) = .ok s := by
        rwa [show a + (k + 1) = a + 1 + k by omega] at hok
      have hrec := ih f (a + 1)
        (update_job_status st .writing 50
          (some ("Rate limited, waiting " ++ toString ((2 : ℚ) ^ a + jitter a).floor ++ "s...")) none none now)
        (by omega) hfail' hok'
      simp only [retry_go, h0, hrb, if_true, hf, if_false]
      refine ⟨hrec.1, by rw [hrec.2.1], ?_⟩
      rw [hrec.2.2, Finset.sum_range_succ']
      have harg : ∀ i, a + 1 + i = a + (i + 1) := by omega
      simp only [harg, Nat.add_zero]
      ring

theorem retry_law_generic (retryable : ApiFailure → Bool) (hrb : retryable .rate_limit = true)
    (st : JobStore) (call : Nat → AttemptResult) (jitter : Nat → ℚ)
    (N max_retries : Nat) (s : String) (now : Nat)
    (h1 : 1 ≤ N) (h2 : N ≤ max_retries)
    (hfail : ∀ i, i < N - 1 → call i = .err .rate_limit)
    (hok : call (N - 1) = .ok s)
    (hjit : ∀ i, 0 ≤ jitter i ∧ jitter i < 1) :
    (retry_go retryable call jitter now max_retries 0 st).result = .returned s ∧
    (retry_go retryable call jitter now max_retries 0 st).attempts = N ∧
    (retry_go retryable call jitter now max_retries 0 st).totalSleep =
      Finset.sum (Finset.range (N - 1)) (fun i => (2 : ℚ) ^ i + jitter i) ∧
    Finset.sum (Finset.range (N - 1)) (fun i => (2 : ℚ) ^ i) ≤
      (retry_go retryable call jitter now max_retries 0 st).totalSleep ∧
    (retry_go retryable call jitter now max_retries 0 st).totalSleep ≤
      Finset.sum (Finset.range (N - 1)) (fun i => (2 : ℚ) ^ i) + (N : ℚ) := by
  have hspec := retry_go_spec retryable call jitter now s hrb (N - 1) max_retries 0 st
    (by omega) (by intro i hi; simpa using hfail i hi) (by simpa using hok)
  have hsum : (retry_go retryable call jitter now max_retries 0 st).totalSleep =
      Finset.sum (Finset.range (N - 1)) (fun i => (2 : ℚ) ^ i + jitter i) := by
    rw [hspec.2.2]
    simp
  refine ⟨hspec.1, by rw [hspec.2.1]; omega, hsum, ?_, ?_⟩
  · rw [hsum]
    exact Finset.sum_le_sum (fun i _ => le_add_of_nonneg_right (hjit i).1)
  · rw [hsum, Finset.sum_add_distrib]
    have hj : Finset.sum (Finset.range (N - 1)) (fun i => jitter i) ≤ (N : ℚ) := by
      calc Finset.sum (Finset.range (N - 1)) (fun i => jitter i)
          ≤ Finset.sum (Finset.range (N - 1)) (fun _ => (1 : ℚ)) :=
            Finset.sum_le_sum (fun i _ => le_of_lt (hjit i).2)
        _ = ((N - 1 : Nat) : ℚ) := by simp
        _ ≤ (N : ℚ) := by
            exact_mod_cast Nat.cast_le.mpr (by omega : N - 1 ≤ N)
    linarith

/--
C5: for every N with 1 <= N <= max_retries, if the wrapped call fails with
a rate-limit error on the first N - 1 attempts and succeeds on the N-th,
both retry helpers return the N-th result after exactly N attempts, and
the cumulative sleep equals the sum over i in 0..N-2 of (2 ^ i + jitter i),
which lies within [sum 2 ^ i, sum 2 ^ i + N] seconds when every jitter draw
lies in [0, 1).
-/
theorem retry_law :
    (∀ (st : JobStore) (call : Nat → AttemptResult) (jitter : Nat → ℚ)
       (N max_retries : Nat) (s : String) (now : Nat),
       1 ≤ N → N ≤ max_retries →
       (∀ i, i < N - 1 → call i = .err .rate_limit) →
       call (N - 1) = .ok s →
       (∀ i, 0 ≤ jitter i ∧ jitter i < 1) →
       (api_call_with_retry st call jitter max_retries now).result = .returned s ∧
       (api_call_with_retry st call jitter max_retries now).attempts = N ∧
       (api_call_with_retry st call jitter max_retries now).totalSleep =
         Finset.sum (Finset.range (N - 1)) (fun i => (2 : ℚ) ^ i + jitter i) ∧
       Finset.sum (Finset.range (N - 1)) (fun i => (2 : ℚ) ^ i) ≤
         (api_call_with_retry st call jitter max_retries now).totalSleep ∧
       (api_call_with_retry st call jitter max_retries now).totalSleep ≤
         Finset.sum (Finset.range (N - 1)) (fun i => (2 : ℚ) ^ i) + (N : ℚ)) ∧
    (∀ (st : JobStore) (call : Nat → AttemptResult) (jitter : Nat → ℚ)
       (N max_retries : Nat) (s : String) (now : Nat),
       1 ≤ N → N ≤ max_retries →
       (∀ i, i < N - 1 → call i = .err .rate_limit) →
       call (N - 1) = .ok s →
       (∀ i, 0 ≤ jitter i ∧ jitter i < 1) →
       (claude_api_call_with_retry st call jitter max_retries now).result = .returned s ∧
       (claude_api_call_with_retry st call jitter max_retries now).attempts = N ∧
       (claude_api_call_with_retry st call jitter max_retries now).totalSleep =
         Finset.sum (Finset.range (N - 1)) (fun i => (2 : ℚ) ^ i + jitter i) ∧
       Finset.sum (Finset.range (N - 1)) (fun i => (2 : ℚ) ^ i) ≤
         (claude_api_call_with_retry st call jitter max_retries now).totalSleep ∧
       (claude_api_call_with_retry st call jitter max_retries now).totalSleep ≤
         Finset.sum (Finset.range (N - 1)) (fun i => (2 : ℚ) ^ i) + (N : ℚ)) := by
  constructor
  · intro st call jitter N max_retries s now h1 h2 hfail hok hjit
    exact retry_law_generic openaiRetryable rfl st call jitter N max_retries s now
      h1 h2 hfail hok hjit
  · intro st call jitter N max_retries s now h1 h2 hfail hok hjit
    exact retry_law_generic claudeRetryable rfl st call jitter N max_retries s now
      h1 h2 hfail hok hjit

/--
Witness for C5 at a concrete input: two rate limits then a success, with
constant jitter one half, returns the third result after three attempts and
sleeps a total of four seconds.
-/
theorem retry_law_witness :
    (api_call_with_retry cStoreGen cCall cJitter 5 0).result = .returned "out" ∧
    (api_call_with_retry cStoreGen cCall cJitter 5 0).attempts = 3 ∧
    (api_call_with_retry cStoreGen cCall cJitter 5 0).totalSleep = 4 ∧
    (claude_api_call_with_retry cStoreGen cCall cJitter 5 0).attempts = 3 := by
  have h1 := (retry_law.1 cStoreGen cCall cJitter 3 5 "out" 0
    (by norm_num) (by norm_num)
    (by intro i hi; interval_cases i <;> rfl) rfl
    (by intro i; constructor <;> norm_num [cJitter]))
  have h2 := (retry_law.2 cStoreGen cCall cJitter 3 5 "out" 0
    (by norm_num) (by norm_num)
    (by intro i hi; interval_cases i <;> rfl) rfl
    (by intro i; constructor <;> norm_num [cJitter]))
  refine ⟨h1.1, h1.2.1, ?_, h2.2.1⟩
  rw [h1.2.2.1]
  rw [show (3 : Nat) - 1 = 2 from rfl]
  rw [Finset.sum_range_succ, Finset.sum_range_succ, Finset.sum_range_zero]
  norm_num [cJitter]

theorem retry_go_updates_all (retryable : ApiFailure → Bool) (call : Nat → AttemptResult)
    (jitter : Nat → ℚ) (now : Nat) :
    ∀ (fuel a : Nat) (st : JobStore) (u : JobStatus × Nat),
      u ∈ (retry_go retryable call jitter now fuel a st).updates → u = (.writing, 50) := by
  intro fuel
  induction fuel with
  | zero =>
    intro a st u hu
    simp [retry_go] at hu
  | succ f ih =>
    intro a st u hu
    simp only [retry_go] at hu
    cases hc : call a with
    | ok c => rw [hc] at hu; simp at hu
    | err g =>
      rw [hc] at hu
      by_cases hr : retryable g
      · simp only [hr, if_true] at hu
        by_cases hf : f = 0
        · simp only [hf, if_true] at hu
          simpa using hu
        · simp only [hf, if_false] at hu
          simp only [List.mem_cons] at hu
          rcases hu with h | h
          · exact h
          · exact ih (a + 1) _ u h
      · simp [hr] at hu

theorem retry_go_sp (retryable : ApiFailure → Bool) (call : Nat → AttemptResult)
    (jitter : Nat → ℚ) (now : Nat) :
    ∀ (fuel a : Nat) (st : JobStore),
      jobSP st = some (.writing, 50) →
      jobSP (retry_go retryable call jitter now fuel a st).store = some (.writing, 50) := by
  intro fuel
  induction fuel with
  | zero =>
    intro a st hst
    simpa [retry_go] using hst
  | succ f ih =>
    intro a st hst
    simp only [retry_go]
    cases hc : call a with
    | ok c => exact hst
    | err g =>
      by_cases hr : retryable g
      · have hst' : jobSP (update_job_status st .writing 50
            (some ("Rate limited, waiting " ++
              toString ((2 : ℚ) ^ a + jitter a).floor ++ "s...")) none none now) =
            some (.writing, 50) := by
          rw [jobSP_update]
          have := jobSP_isSome st _ hst
          cases hj : st.job with
          | none => rw [hj] at this; simp at this
          | some j => simp [hj]
        by_cases hf : f = 0
        · simp only [hr, if_true, hf]
          exact hst'
        · simp only [hr, if_true, hf, if_false]
          exact ih (a + 1) _ hst'
      · simp only [hr, if_false]
        exact hst

/--
C9: whenever a retry helper performs a rate-limit wait, the intermediate
update it publishes sets the job status to WRITING and the progress to 50,
whatever status and progress the invoking stage had stored: every update
published by either helper is the pair (WRITING, 50), and after a first
retryable failure the job record holds exactly that pair, for any prior
record whatsoever (the helpers hardcode WRITING and 50; they never read
the record they overwrite).
-/
theorem retry_update_fixed_status_progress :
    (∀ (st : JobStore) (j : JobRecord) (call : Nat → AttemptResult) (jitter : Nat → ℚ)
       (max_retries now : Nat),
       st.job = some j → 1 ≤ max_retries → call 0 = .err .rate_limit →
       (∀ u ∈ (api_call_with_retry st call jitter max_retries now).updates,
          u = (JobStatus.writing, 50)) ∧
       jobSP (api_call_with_retry st call jitter max_retries now).store =
         some (.writing, 50)) ∧
    (∀ (st : JobStore) (j : JobRecord) (call : Nat → AttemptResult) (jitter : Nat → ℚ)
       (max_retries now : Nat),
       st.job = some j → 1 ≤ max_retries → call 0 = .err .overloaded →
       (∀ u ∈ (claude_api_call_with_retry st call jitter max_retries now).updates,
          u = (JobStatus.writing, 50)) ∧
       jobSP (claude_api_call_with_retry st call jitter max_retries now).store =
         some (.writing, 50)) := by
  constructor
  · intro st j call jitter max_retries now hj hmr hcall
    refine ⟨fun u hu => retry_go_updates_all _ _ _ _ _ _ _ u hu, ?_⟩
    cases max_retries with
    | zero => omega
    | succ m =>
      unfold api_call_with_retry
      simp only [retry_go, hcall, openaiRetryable, if_true]
      have hst' : ∀ (msg : Option String),
          jobSP (update_job_status st .writing 50 msg none none now) = some (.writing, 50) := by
        intro msg
        rw [jobSP_update, hj]
        simp
      by_cases hm : m = 0
      · simp only [hm, if_true]
        exact hst' _
      · simp only [hm, if_false]
        exact retry_go_sp _ _ _ _ _ _ _ (hst' _)
  · intro st j call jitter max_retries now hj hmr hcall
    refine ⟨fun u hu => retry_go_updates_all _ _ _ _ _ _ _ u hu, ?_⟩
    cases max_retries with
    | zero => omega
    | succ m =>
      unfold claude_api_call_with_retry
      simp only [retry_go, hcall, claudeRetryable, if_true]
      have hst' : ∀ (msg : Option String),
          jobSP (update_job_status st .writing 50 msg none none now) = some (.writing, 50) := by
        intro msg
        rw [jobSP_update, hj]
        simp
      by_cases hm : m = 0
      · simp only [hm, if_true]
        exact hst' _
      · simp only [hm, if_false]
        exact retry_go_sp _ _ _ _ _ _ _ (hst' _)

/--
Witness for C9 at a concrete input: invoked on an EXTRACTING job at
progress 20 with a first rate-limit (respectively overload) failure, both
helpers leave the record at WRITING and 50.
-/
theorem retry_update_fixed_status_progress_witness :
    jobSP (api_call_with_retry cStoreGen cCall cJitter 5 0).store = some (.writing, 50) ∧
    jobSP (claude_api_call_with_retry cStoreGen cCallOverloaded cJitter 5 0).store =
      some (.writing, 50) := by
  constructor
  · exact (retry_update_fixed_status_progress.1 cStoreGen cJobExtracting cCall cJitter 5 0
      rfl (by norm_num) rfl).2
  · exact (retry_update_fixed_status_progress.2 cStoreGen cJobExtracting cCallOverloaded cJitter 5 0
      rfl (by norm_num) rfl).2

theorem process_document_cases (st0 : JobStore) (t : String) (v : Nat → Option String) (now : Nat) :
    (∀ j, st0.job = some j →
       (process_document st0 t v now).result = .success ∧
       jobSP (process_document st0 t v now).store = some (.extracting, 20) ∧
       (process_document st0 t v now).dispatch = [.generateE]) ∧
    (st0.job = none →
       (process_document st0 t v now).result = .failed typeErrorMsg ∧
       jobSP (process_document st0 t v now).store = none ∧
       (process_document st0 t v now).dispatch = []) := by
  constructor
  · intro j hj
    simp only [process_document, update_job_status_job_eq st0 _ _ _ _ _ _ j hj]
    split
    · simp [jobSP_update, update_job_status, jobSP, hj]
    · simp [jobSP_update, update_job_status, jobSP, hj]
  · intro hj
    simp only [process_document, update_job_status, hj]
    simp [processFail, update_job_status, jobSP, hj]

theorem process_document_trace (st : JobStore) (t : String) (v : Nat → Option String)
    (now : Nat) :
    (process_document st t v now).trace = [(.extracting, 10), (.failed, 0)] ∨
    (process_document st t v now).trace = [(.extracting, 10), (.extracting, 20)] ∨
    (process_document st t v now).trace =
      [(.extracting, 10), (.extracting, 15), (.extracting, 20)] := by
  cases hj : st.job with
  | none =>
    left
    simp only [process_document, update_job_status_none st hj, hj]
    simp [processFail]
  | some j =>
    simp only [process_document, update_job_status_some st j hj]
    by_cases hc : j.ref_image_count > 0
    · right; right
      simp [hc]
    · right; left
      simp [hc]

theorem process_document_frame (st : JobStore) (t : String) (v : Nat → Option String)
    (now : Nat) :
    (process_document st t v now).store.draft = st.draft ∧
    (process_document st t v now).store.humanized = st.humanized := by
  cases hj : st.job with
  | none =>
    simp only [process_document, update_job_status_none st hj, hj]
    simp [processFail, update_job_status_draft_eq, update_job_status_humanized_eq]
  | some j =>
    simp only [process_document, update_job_status_some st j hj]
    by_cases hc : j.ref_image_count > 0 <;>
      simp [hc, update_job_status_draft_eq, update_job_status_humanized_eq]

theorem generate_essay_spec (st : JobStore) (now : Nat) :
    (generate_essay st now).result = .failed (attributeErrorMsg "PLANNING") ∧
    (generate_essay st now).trace = [(.failed, 0)] ∧
    (generate_essay st now).dispatch = [] ∧
    jobSP (generate_essay st now).store = st.job.map (fun _ => (JobStatus.failed, 0)) ∧
    (generate_essay st now).store.draft = st.draft ∧
    (generate_essay st now).store.humanized = st.humanized := by
  simp [generate_essay, genFail, jobSP_update, update_job_status_draft_eq,
    update_job_status_humanized_eq]

theorem refine_essay_spec (st : JobStore) (instr : String) (now : Nat) :
    (refine_essay st instr now).result = .failed (attributeErrorMsg "REFINING") ∧
    (refine_essay st instr now).trace = [(.failed, 0)] ∧
    (refine_essay st instr now).dispatch = [] ∧
    jobSP (refine_essay st instr now).store = st.job.map (fun _ => (JobStatus.failed, 0)) ∧
    (refine_essay st instr now).store.draft = st.draft ∧
    (refine_essay st instr now).store.humanized = st.humanized := by
  simp [refine_essay, refineFail, jobSP_update, update_job_status_draft_eq,
    update_job_status_humanized_eq]

theorem structure_essay_spec (st : JobStore) (raw_text : String) (instr : Option String)
    (now : Nat) :
    (structure_essay st raw_text instr now).result = .failed (attributeErrorMsg "PLANNING") ∧
    (structure_essay st raw_text instr now).trace = [(.failed, 0)] ∧
    (structure_essay st raw_text instr now).dispatch = [] ∧
    jobSP (structure_essay st raw_text instr now).store =
      st.job.map (fun _ => (JobStatus.failed, 0)) ∧
    (structure_essay st raw_text instr now).store.draft = st.draft ∧
    (structure_essay st raw_text instr now).store.humanized = st.humanized := by
  simp [structure_essay, structFail, jobSP_update, update_job_status_draft_eq,
    update_job_status_humanized_eq]

theorem humanize_spec (st0 : JobStore) (o : HumOracle) (now : Nat) :
    (humanize_essay st0 o now).trace = [(.humanizing, 70), (.failed, 0)] ∧
    (humanize_essay st0 o now).dispatch = [] ∧
    jobSP (humanize_essay st0 o now).store =
      st0.job.map (fun _ => (JobStatus.failed, 0)) ∧
    (humanize_essay st0 o now).store.draft = st0.draft ∧
    (st0.draft = none → (humanize_essay st0 o now).store.humanized = st0.humanized) := by
  cases hj : st0.job with
  | none =>
    simp only [humanize_essay, update_job_status_none st0 hj]
    cases hd : st0.draft with
    | none => simp [hd, genFail, update_job_status_none st0 hj, jobSP, hj]
    | some d =>
      simp only [hd, hj]
      cases hr : o.reply with
      | raised err => simp [genFail, update_job_status_none st0 hj, jobSP, hj, hd]
      | success parsed raw =>
        simp [genFail, update_job_status_none st0 hj, jobSP, hj, hd]
  | some j =>
    simp only [humanize_essay, update_job_status_some st0 j hj]
    cases hd : st0.draft with
    | none => simp [hd, genFail, update_job_status, jobSP, hj]
    | some d =>
      simp only [hd]
      cases hr : o.reply with
      | raised err => simp [genFail, update_job_status, jobSP, hj, hd]
      | success parsed raw =>
        cases hp : parsed with
        | none => simp [genFail, update_job_status, jobSP, hj, hd]
        | some h0 => simp [genFail, update_job_status, jobSP, hj, hd]

theorem humanize_persist_spec (st0 : JobStore) (d : EssayOutput) (j : JobRecord)
    (e : EssayOutput) (raw : String) (now : Nat)
    (hd : st0.draft = some d) (hj : st0.job = some j) :
    (humanize_essay st0 { reply := .success (some e) raw } now).store.humanized =
      some { e with references := d.references } ∧
    (humanize_essay st0 { reply := .success (some e) raw } now).result =
      .failed (attributeErrorMsg "WAITING_FOR_REVIEW") := by
  simp only [humanize_essay, update_job_status_some st0 j hj, hd]
  simp [genFail, update_job_status]

theorem generate_pdf_cases (st0 : JobStore) (o : PdfOracle) (now : Nat) :
    ((generate_pdf st0 o now).result = .success →
       jobSP (generate_pdf st0 o now).store = some (JobStatus.completed, 100) ∧
       (generate_pdf st0 o now).store.pdf.isSome = true ∧
       (generate_pdf st0 o now).store.docx.isSome = true ∧
       (generate_pdf st0 o now).dispatch = []) ∧
    (∀ e, (generate_pdf st0 o now).result = .failed e →
       jobSP (generate_pdf st0 o now).store = st0.job.map (fun _ => (JobStatus.failed, 0)) ∧
       (generate_pdf st0 o now).dispatch = []) := by
  cases hj : st0.job with
  | none =>
    simp only [generate_pdf, update_job_status_none st0 hj]
    cases hh : st0.humanized with
    | none =>
      simp only [pdfFail, update_job_status_none st0 hj]
      exact ⟨fun hsucc => by simp at hsucc, fun e he => by simp [jobSP, hj]⟩
    | some essay =>
      simp only [hj, pdfFail, update_job_status_none st0 hj]
      exact ⟨fun hsucc => by simp at hsucc, fun e he => by simp [jobSP, hj]⟩
  | some j =>
    simp only [generate_pdf, update_job_status_some st0 j hj]
    cases hh : st0.humanized with
    | none =>
      simp only [pdfFail]
      exact ⟨fun hsucc => by simp at hsucc,
             fun e he => by simp [update_job_status, jobSP, hj]⟩
    | some essay =>
      by_cases hpdf : o.pdf_render_ok
      · simp only [hpdf, if_true]
        by_cases hdocx : o.docx_render_ok
        · simp only [hdocx, if_true]
          constructor
          · intro hsucc
            simp [jobSP]
          · intro e he; simp at he
        · simp only [hdocx, if_false]
          simp only [pdfFail]
          exact ⟨fun hsucc => by simp at hsucc,
                 fun e he => by simp [update_job_status, jobSP, hj]⟩
      · simp only [hpdf, if_false]
        simp only [pdfFail]
        exact ⟨fun hsucc => by simp at hsucc,
               fun e he => by simp [update_job_status, jobSP, hj]⟩

theorem generate_pdf_trace (st : JobStore) (o : PdfOracle) (now : Nat) :
    (generate_pdf st o now).trace = [(.formatting, 90), (.failed, 0)] ∨
    (generate_pdf st o now).trace = [(.formatting, 90), (.completed, 100)] := by
  cases hh : st.humanized with
  | none =>
    left
    simp only [generate_pdf, update_job_status_humanized_eq, hh]
    simp [pdfFail]
  | some essay =>
    cases hj : st.job with
    | none =>
      left
      simp only [generate_pdf, update_job_status_none st hj, hh, hj]
      simp [pdfFail]
    | some j =>
      simp only [generate_pdf, update_job_status_some st j hj, hh]
      by_cases hp : o.pdf_render_ok
      · by_cases hdo : o.docx_render_ok
        · right
          simp [hp, hdo]
        · left
          simp [hp, hdo, pdfFail]
      · left
        simp [hp, pdfFail]

theorem generate_pdf_no_humanized_spec (st : JobStore) (o : PdfOracle) (now : Nat)
    (h : st.humanized = none) :
    (generate_pdf st o now).store.draft = st.draft ∧
    (generate_pdf st o now).store.humanized = st.humanized ∧
    jobSP (generate_pdf st o now).store = st.job.map (fun _ => (JobStatus.failed, 0)) := by
  simp only [generate_pdf, update_job_status_humanized_eq, h]
  refine ⟨?_, ?_, ?_⟩
  · simp [pdfFail, update_job_status_draft_eq]
  · simp [pdfFail, update_job_status_humanized_eq, h]
  · simp only [pdfFail]
    rw [jobSP_update]
    exact mapConst_eq_of_isSome_eq _ _ _ (by simp [update_job_status_isSome])

/--
Invariant of the reachable per-job stores in the current code: no stage run
ever stores a draft or a humanized essay (generate_essay, refine_essay and
structure_essay fail before any write, and humanize_essay needs a draft
that never exists), and consequently no reachable job record ever carries
status COMPLETED (generate_pdf needs the humanized artifact).
-/
theorem reachable_inv (s : JobStore) (hr : Reachable s) :
    s.draft = none ∧ s.humanized = none ∧
    ¬ s.job.map JobRecord.status = some JobStatus.completed := by
  induction hr with
  | upload job_id sn cn ap ric hi now =>
    refine ⟨rfl, rfl, ?_⟩
    simp [upload_file_store, uploadJobRecord]
  | importE job_id text now =>
    refine ⟨rfl, rfl, ?_⟩
    simp [import_essay_store]
  | step s0 op hr0 ih =>
    obtain ⟨hd, hh, _hc⟩ := ih
    cases op with
    | processDoc t v now =>
      have hf := process_document_frame s0 t v now
      refine ⟨?_, ?_, ?_⟩
      · simp only [runOp]; rw [hf.1]; exact hd
      · simp only [runOp]; rw [hf.2]; exact hh
      · simp only [runOp]
        rw [map_status_eq]
        cases hj0 : s0.job with
        | some j0 =>
          rw [((process_document_cases s0 t v now).1 j0 hj0).2.1]
          simp
        | none =>
          rw [((process_document_cases s0 t v now).2 hj0).2.1]
          simp
    | generateE now =>
      have hs := generate_essay_spec s0 now
      refine ⟨?_, ?_, ?_⟩
      · simp only [runOp]; rw [hs.2.2.2.2.1]; exact hd
      · simp only [runOp]; rw [hs.2.2.2.2.2]; exact hh
      · simp only [runOp]; rw [map_status_eq, hs.2.2.2.1]; cases s0.job <;> simp
    | humanizeE o now =>
      have hs := humanize_spec s0 o now
      refine ⟨?_, ?_, ?_⟩
      · simp only [runOp]; rw [hs.2.2.2.1]; exact hd
      · simp only [runOp]; rw [hs.2.2.2.2 hd]; exact hh
      · simp only [runOp]; rw [map_status_eq, hs.2.2.1]; cases s0.job <;> simp
    | refineE instr now =>
      have hs := refine_essay_spec s0 instr now
      refine ⟨?_, ?_, ?_⟩
      · simp only [runOp]; rw [hs.2.2.2.2.1]; exact hd
      · simp only [runOp]; rw [hs.2.2.2.2.2]; exact hh
      · simp only [runOp]; rw [map_status_eq, hs.2.2.2.1]; cases s0.job <;> simp
    | structureE raw instr now =>
      have hs := structure_essay_spec s0 raw instr now
      refine ⟨?_, ?_, ?_⟩
      · simp only [runOp]; rw [hs.2.2.2.2.1]; exact hd
      · simp only [runOp]; rw [hs.2.2.2.2.2]; exact hh
      · simp only [runOp]; rw [map_status_eq, hs.2.2.2.1]; cases s0.job <;> simp
    | generatePdf o now =>
      have hs := generate_pdf_no_humanized_spec s0 o now hh
      refine ⟨?_, ?_, ?_⟩
      · simp only [runOp]; rw [hs.1]; exact hd
      · simp only [runOp]; rw [hs.2.1]; exact hh
      · simp only [runOp]; rw [map_status_eq, hs.2.2]; cases s0.job <;> simp

/--
C2 counterexample: re-delivering process_document for a job whose status is
FAILED does not leave the status FAILED; the stage overwrites it with
EXTRACTING (progress 20) and still dispatches the next stage.
-/
theorem failed_job_redelivery_counterexample :
    jobSP (process_document cStoreFailed "text" (fun _ => none) 0).store =
      some (.extracting, 20) ∧
    ¬ (process_document cStoreFailed "text" (fun _ => none) 0).store.job.map
        JobRecord.status = some JobStatus.failed ∧
    (process_document cStoreFailed "text" (fun _ => none) 0).dispatch = [.generateE] := by
  decide

/--
C2 (amended): FAILED is not terminal under re-delivery.  update_job_status
applies no terminal-state guard, so re-running a stage task for a FAILED
job overwrites the status with the stage statuses: process_document, for
example, moves any FAILED job to EXTRACTING at progress 20, completes, and
re-dispatches generate_essay.
-/
theorem redelivery_overwrites_failed_status :
    ∀ (st : JobStore) (j : JobRecord) (t : String) (v : Nat → Option String) (now : Nat),
      st.job = some j → j.status = .failed →
      jobSP (process_document st t v now).store = some (.extracting, 20) ∧
      (process_document st t v now).result = .success ∧
      (process_document st t v now).dispatch = [.generateE] := by
  intro st j t v now hj _hfail
  have h := (process_document_cases st t v now).1 j hj
  exact ⟨h.2.1, h.1, h.2.2⟩

/-- Witness for C2 (amended) at the concrete FAILED store. -/
theorem redelivery_overwrites_failed_status_witness :
    jobSP (process_document cStoreFailed "text" (fun _ => none) 0).store =
      some (.extracting, 20) := by
  exact (redelivery_overwrites_failed_status cStoreFailed cJobFailed "text"
    (fun _ => none) 0 rfl rfl).1

/--
C3 counterexample: a refine request for a COMPLETED job is not rejected:
the endpoint answers accepted and dispatches refine_essay; the dispatched
run then raises AttributeError on the missing JobStatus.REFINING member
and marks the COMPLETED job FAILED at progress 0, while the stored essay
is left in place.
-/
theorem refine_completed_accepted_counterexample :
    (refine_essay_endpoint cStoreCompleted).1 = .accepted ∧
    (refine_essay_endpoint cStoreCompleted).2 = [.refineE] ∧
    (refine_essay cStoreCompleted "shorten it" 0).result =
      .failed (attributeErrorMsg "REFINING") ∧
    jobSP (refine_essay cStoreCompleted "shorten it" 0).store = some (.failed, 0) ∧
    (refine_essay cStoreCompleted "shorten it" 0).store.humanized = some cEssay := by
  decide

/--
C3 (amended): the refine endpoint validates only the existence of the job
record, never its status: the request is accepted (and the REFINING stage
dispatched) exactly when the record exists, whatever the status, and is
rejected with 404 only when the record is absent.
-/
theorem refine_endpoint_checks_existence_only :
    ∀ st : JobStore,
      ((refine_essay_endpoint st).1 = .accepted ↔ st.job.isSome = true) ∧
      (refine_essay_endpoint st).2 = (if st.job.isSome then [TaskName.refineE] else []) := by
  intro st
  unfold refine_essay_endpoint
  by_cases h : st.job.isSome <;> simp [h]

/--
C6 counterexample: when the humanize stage fails (missing draft), the trace
shows the progress held 70 immediately before the failure, yet the FAILED
update stores progress 0, not the last known progress.
-/
theorem failed_progress_reset_counterexample :
    (humanize_essay cStoreNoDraft { reply := .success (some cEssayRewritten) "raw" } 0).trace =
      [(.humanizing, 70), (.failed, 0)] ∧
    jobSP (humanize_essay cStoreNoDraft
        { reply := .success (some cEssayRewritten) "raw" } 0).store = some (.failed, 0) ∧
    ¬ jobSP (humanize_essay cStoreNoDraft
        { reply := .success (some cEssayRewritten) "raw" } 0).store = some (.failed, 70) := by
  decide

/--
C6 (amended): every failure handler of the generate and humanize stages
passes progress 0 to the FAILED update, so at the moment of the FAILED
transition the record holds progress 0, not the value it held immediately
before the failure.
-/
theorem failure_sets_progress_zero :
    (∀ (st : JobStore) (now : Nat) (e : String),
       (generate_essay st now).result = .failed e →
       jobSP (generate_essay st now).store = st.job.map (fun _ => (JobStatus.failed, 0))) ∧
    (∀ (st : JobStore) (o : HumOracle) (now : Nat) (e : String),
       (humanize_essay st o now).result = .failed e →
       jobSP (humanize_essay st o now).store = st.job.map (fun _ => (JobStatus.failed, 0))) := by
  constructor
  · intro st now e _he
    exact (generate_essay_spec st now).2.2.2.1
  · intro st o now e _he
    exact (humanize_spec st o now).2.2.1

/-- Witness for C6 (amended) at a concrete failing humanize run. -/
theorem failure_sets_progress_zero_witness :
    jobSP (humanize_essay cStoreNoDraft
        { reply := .success (some cEssayRewritten) "raw" } 0).store =
      cStoreNoDraft.job.map (fun _ => (JobStatus.failed, 0)) := by
  exact failure_sets_progress_zero.2 cStoreNoDraft
    { reply := .success (some cEssayRewritten) "raw" } 0 "No draft found" (by decide)

/--
C4 counterexample: a humanize run on a valid draft whose rewriting reply is
unparseable does not recover with a fallback; the stage fails the job:
status FAILED, progress 0, no humanized artifact stored.
-/
theorem humanize_parse_failure_fails_job_counterexample :
    (humanize_essay cStoreDraft { reply := .success none "plain text, not JSON" } 0).result =
      .failed jsonDecodeErrorMsg ∧
    jobSP (humanize_essay cStoreDraft
        { reply := .success none "plain text, not JSON" } 0).store = some (.failed, 0) ∧
    (humanize_essay cStoreDraft
        { reply := .success none "plain text, not JSON" } 0).store.humanized = none := by
  decide

/--
C4 (amended): no stage recovers a malformed structured reply with a
documented fallback.  generate_essay never reaches its parse sites: it
fails every run at its first statement on the missing JobStatus.PLANNING
member.  humanize_essay does reach its json.loads, which is unguarded: an
unparseable rewriting reply fails the job (FAILED, progress 0).
refine_essay and structure_essay fail before any API call on missing
JobStatus members, so their parse sites are unreachable and every run
fails the job.
-/
theorem malformed_reply_not_recovered :
    (∀ (st : JobStore) (now : Nat),
       (generate_essay st now).result = .failed (attributeErrorMsg "PLANNING") ∧
       (generate_essay st now).dispatch = []) ∧
    (∀ (st : JobStore) (d : EssayOutput) (j : JobRecord) (o : HumOracle) (now : Nat)
       (raw : String),
       st.draft = some d → st.job = some j → o.reply = .success none raw →
       (humanize_essay st o now).result = .failed jsonDecodeErrorMsg ∧
       jobSP (humanize_essay st o now).store = some (.failed, 0)) ∧
    (∀ (st : JobStore) (instr : String) (now : Nat),
       (refine_essay st instr now).result = .failed (attributeErrorMsg "REFINING") ∧
       jobSP (refine_essay st instr now).store =
         st.job.map (fun _ => (JobStatus.failed, 0))) ∧
    (∀ (st : JobStore) (raw_text : String) (instr : Option String) (now : Nat),
       (structure_essay st raw_text instr now).result =
         .failed (attributeErrorMsg "PLANNING") ∧
       jobSP (structure_essay st raw_text instr now).store =
         st.job.map (fun _ => (JobStatus.failed, 0))) := by
  refine ⟨?_, ?_, ?_, ?_⟩
  · intro st now
    exact ⟨(generate_essay_spec st now).1, (generate_essay_spec st now).2.2.1⟩
  · intro st d j o now raw hd hj hr
    simp only [humanize_essay, update_job_status_some st j hj, hd, hr, genFail]
    constructor
    · trivial
    · simp [update_job_status, jobSP]
  · intro st instr now
    exact ⟨(refine_essay_spec st instr now).1, (refine_essay_spec st instr now).2.2.2.1⟩
  · intro st raw_text instr now
    exact ⟨(structure_essay_spec st raw_text instr now).1,
           (structure_essay_spec st raw_text instr now).2.2.2.1⟩

/--
Witness for C4 at concrete inputs: a humanize run on a valid draft whose
rewriting reply is unparseable fails the job with the decode error, and a
generate run fails with the AttributeError message before any parse.
-/
theorem malformed_reply_not_recovered_witness :
    (humanize_essay cStoreDraft { reply := .success none "plain text, not JSON" } 0).result =
      .failed jsonDecodeErrorMsg ∧
    (generate_essay cStoreGen 0).result = .failed (attributeErrorMsg "PLANNING") := by
  refine ⟨?_, (malformed_reply_not_recovered.1 cStoreGen 0).1⟩
  exact (malformed_reply_not_recovered.2.1 cStoreDraft cEssay cJobHumanizing
    { reply := .success none "plain text, not JSON" } 0 "plain text, not JSON"
    rfl rfl rfl).1

/--
C1 counterexample: celery delivers tasks at least once (acks_late), and a
re-delivered process_document re-runs from the start: across the two runs
the job record receives (EXTRACTING, 20) immediately followed by
(EXTRACTING, 10), two consecutive non-terminal updates whose progress
decreases, refuting global monotonicity.
-/
theorem progress_decreases_across_redelivery_counterexample :
    (process_document cStoreGen "text" (fun _ => none) 0).result = .success ∧
    (process_document (process_document cStoreGen "text" (fun _ => none) 0).store
        "text" (fun _ => none) 1).result = .success ∧
    (process_document cStoreGen "text" (fun _ => none) 0).trace ++
        (process_document (process_document cStoreGen "text" (fun _ => none) 0).store
          "text" (fun _ => none) 1).trace =
      [(.extracting, 10), (.extracting, 20), (.extracting, 10), (.extracting, 20)] ∧
    progressNonDecreasing
        ((process_document cStoreGen "text" (fun _ => none) 0).trace ++
          (process_document (process_document cStoreGen "text" (fun _ => none) 0).store
            "text" (fun _ => none) 1).trace) = false := by
  decide

/--
C1 (amended): within any single stage execution the status updates
published to the job record are non-decreasing in progress at every
consecutive pair whose endpoints are both non-terminal; the claim fails
only across executions, where an at-least-once re-delivery restarts a
stage and its first update can undercut the previous run's last one.
-/
theorem stage_run_progress_monotone :
    ∀ (s : JobStore) (op : StageOp),
      progressNonDecreasing (runOp s op).trace = true := by
  intro s op
  cases op with
  | processDoc t v now =>
    simp only [runOp]
    rcases process_document_trace s t v now with h | h | h <;> rw [h] <;> decide
  | generateE now =>
    simp only [runOp]
    rw [(generate_essay_spec s now).2.1]
    decide
  | humanizeE o now =>
    simp only [runOp]
    rw [(humanize_spec s o now).1]
    decide
  | refineE instr now =>
    simp only [runOp]
    rw [(refine_essay_spec s instr now).2.1]
    decide
  | structureE raw instr now =>
    simp only [runOp]
    rw [(structure_essay_spec s raw instr now).2.1]
    decide
  | generatePdf o now =>
    simp only [runOp]
    rcases generate_pdf_trace s o now with h | h <;> rw [h] <;> decide

/--
C7: whenever the status of a reachable job store is COMPLETED, both render
artifacts exist: the PDF artifact and the DOCX artifact.  The only
operation that writes COMPLETED is generate_pdf, and a successful run
persists both outputs before rewriting the record (third conjunct).  In
the current code the reachable-state invariant holds vacuously: the second
conjunct proves that no reachable store ever carries a COMPLETED record at
all, because generate_pdf needs a humanized artifact and the stages that
would persist one fail on JobStatus members missing from schemas.py.
-/
theorem completed_implies_both_artifacts :
    (∀ (s : JobStore) (j : JobRecord),
       Reachable s → s.job = some j → j.status = .completed →
       s.pdf.isSome = true ∧ s.docx.isSome = true) ∧
    (∀ s : JobStore, Reachable s →
       ¬ s.job.map JobRecord.status = some JobStatus.completed) ∧
    (∀ (st : JobStore) (o : PdfOracle) (now : Nat),
       (generate_pdf st o now).result = .success →
       (generate_pdf st o now).store.pdf.isSome = true ∧
       (generate_pdf st o now).store.docx.isSome = true ∧
       jobSP (generate_pdf st o now).store = some (JobStatus.completed, 100)) := by
  have h2 : ∀ s : JobStore, Reachable s →
      ¬ s.job.map JobRecord.status = some JobStatus.completed :=
    fun s hr => (reachable_inv s hr).2.2
  refine ⟨?_, h2, ?_⟩
  · intro s j hr hj hst
    exact absurd (by simp [hj, hst]) (h2 s hr)
  · intro st o now hs
    have h := (generate_pdf_cases st o now).1 hs
    exact ⟨h.2.1, h.2.2.1, h.1⟩

/--
Witness for C7: a successful render run on a store holding a humanized
essay persists both artifacts and writes COMPLETED at 100, and a freshly
imported reachable store is not COMPLETED.
-/
theorem completed_implies_both_artifacts_witness :
    ((generate_pdf cStoreCompleted { pdf_render_ok := true, docx_render_ok := true } 0).store.pdf.isSome =
        true ∧
      (generate_pdf cStoreCompleted { pdf_render_ok := true, docx_render_ok := true } 0).store.docx.isSome =
        true ∧
      jobSP (generate_pdf cStoreCompleted
          { pdf_render_ok := true, docx_render_ok := true } 0).store =
        some (JobStatus.completed, 100)) ∧
    ¬ (import_essay_store "job-w" "sample text" 0).job.map JobRecord.status =
        some JobStatus.completed := by
  refine ⟨completed_implies_both_artifacts.2.2 cStoreCompleted
    { pdf_render_ok := true, docx_render_ok := true } 0 (by decide), ?_⟩
  exact completed_implies_both_artifacts.2.1 _ (.importE "job-w" "sample text" 0)

theorem runOp_dispatch_le_one (s : JobStore) (op : StageOp) :
    (runOp s op).dispatch.length ≤ 1 := by
  cases op with
  | processDoc t v now =>
    cases hj : s.job with
    | some j => simp [runOp, ((process_document_cases s t v now).1 j hj).2.2]
    | none => simp [runOp, ((process_document_cases s t v now).2 hj).2.2]
  | generateE now => simp [runOp, (generate_essay_spec s now).2.2.1]
  | humanizeE o now => simp [runOp, (humanize_spec s o now).2.1]
  | refineE instr now => simp [runOp, (refine_essay_spec s instr now).2.2.1]
  | structureE raw instr now => simp [runOp, (structure_essay_spec s raw instr now).2.2.1]
  | generatePdf o now =>
    cases hres : (generate_pdf s o now).result with
    | success => simp [runOp, ((generate_pdf_cases s o now).1 hres).2.2.2]
    | failed e => simp [runOp, ((generate_pdf_cases s o now).2 e hres).2]

theorem sysStep_internal_bound (s t : SysState) (h : SysStep false s t)
    (hs : s.queued.length + s.running.length ≤ 1) :
    t.queued.length + t.running.length ≤ 1 := by
  cases h with
  | start t' l r hq =>
    have h1 := congrArg List.length hq
    simp [List.length_append] at h1 ⊢
    omega
  | finish t' l r op hrun hname =>
    have h1 := congrArg List.length hrun
    have h2 := runOp_dispatch_le_one s.store op
    simp [List.length_append] at h1 ⊢
    omega
  | refineDispatch hep hjob => simp at hep
  | finalizeDispatch hep hjob => simp at hep

/--
C8 counterexample: the refine endpoint dispatches whenever the job record
exists, whatever is queued or in flight for that job, so two refine stage
executions for the same job can run at the same instant: from a state with
nothing queued, two endpoint dispatches and two scheduler starts are a
legal step sequence and leave two refine tasks running concurrently.
-/
theorem overlapping_refine_dispatch_counterexample :
    SysReachable true { store := cStoreGen, queued := [], running := [] }
      { store := cStoreGen, queued := [], running := [.refineE, .refineE] } ∧
    ({ store := cStoreGen, queued := [], running := [.refineE, .refineE] } :
      SysState).running.length = 2 := by
  refine ⟨?_, rfl⟩
  have h1 : SysReachable true { store := cStoreGen, queued := [], running := [] }
      { store := cStoreGen, queued := [.refineE], running := [] } :=
    .tail _ _ _ (.refl _) (.refineDispatch _ rfl (by decide))
  have h2 : SysReachable true { store := cStoreGen, queued := [], running := [] }
      { store := cStoreGen, queued := [.refineE, .refineE], running := [] } :=
    .tail _ _ _ h1 (.refineDispatch _ rfl (by decide))
  have h3 : SysReachable true { store := cStoreGen, queued := [], running := [] }
      { store := cStoreGen, queued := [.refineE], running := [.refineE] } :=
    .tail _ _ _ h2 (.start _ .refineE [] [.refineE] rfl)
  exact .tail _ _ _ h3 (.start _ .refineE [] [] rfl)

/--
C8 (amended): the internal stage chaining alone does keep at most one stage
dispatch per job in flight: starting from one queued task, every state
reachable without the client-facing endpoint dispatches has at most one
task queued or running in total, because every stage enqueues at most one
successor; the guarantee does not survive the refine and finalize
endpoints, which dispatch without checking what is in flight.
-/
theorem internal_chain_single_inflight :
    ∀ (store0 : JobStore) (t0 : TaskName) (s : SysState),
      SysReachable false { store := store0, queued := [t0], running := [] } s →
      s.queued.length + s.running.length ≤ 1 := by
  intro store0 t0 s h
  induction h with
  | refl => simp
  | tail t u hr hstep ih => exact sysStep_internal_bound _ _ hstep ih

/-- Witness for C8 (amended): after a start step the bound still holds. -/
theorem internal_chain_single_inflight_witness :
    ({ store := cStoreGen, queued := [], running := [TaskName.processDoc] } :
      SysState).queued.length +
    ({ store := cStoreGen, queued := [], running := [TaskName.processDoc] } :
      SysState).running.length ≤ 1 := by
  exact internal_chain_single_inflight cStoreGen .processDoc _
    (.tail _ _ _ (.refl _) (.start _ .processDoc [] [] rfl))

/--
C10 counterexample: a humanize run where everything goes right (draft and
job present, rewriting reply parses) still does not succeed: the stage
stores the reference-preserving artifact and then fails the job on the
missing JobStatus.WAITING_FOR_REVIEW member, ending FAILED at progress 0.
-/
theorem humanize_never_succeeds_counterexample :
    (humanize_essay cStoreDraft { reply := .success (some cEssayRewritten) "raw" } 0).result =
      .failed (attributeErrorMsg "WAITING_FOR_REVIEW") ∧
    ¬ (humanize_essay cStoreDraft
        { reply := .success (some cEssayRewritten) "raw" } 0).result = .success ∧
    jobSP (humanize_essay cStoreDraft
        { reply := .success (some cEssayRewritten) "raw" } 0).store = some (.failed, 0) ∧
    (humanize_essay cStoreDraft
        { reply := .success (some cEssayRewritten) "raw" } 0).store.humanized =
      some { cEssayRewritten with references := cEssay.references } := by
  decide

/--
C10 (amended): humanize_essay strips the references from the content sent
to the rewriting call and, whenever the reply parses, re-attaches the
original draft references and persists the result under the humanized key;
but the stage never completes successfully: its completion update
references the missing JobStatus.WAITING_FOR_REVIEW member, so the run
fails the job (FAILED, progress 0) with the reference-preserving artifact
left stored.
-/
theorem humanize_preserves_references :
    ∀ (st : JobStore) (d : EssayOutput) (j : JobRecord) (e : EssayOutput)
      (raw : String) (now : Nat),
      st.draft = some d → st.job = some j →
      (humanize_essay st { reply := .success (some e) raw } now).store.humanized =
        some { e with references := d.references } ∧
      ((humanize_essay st { reply := .success (some e) raw } now).store.humanized.map
        EssayOutput.references) = some d.references ∧
      (humanizeRequestContent d).references = none ∧
      (humanize_essay st { reply := .success (some e) raw } now).result =
        .failed (attributeErrorMsg "WAITING_FOR_REVIEW") ∧
      jobSP (humanize_essay st { reply := .success (some e) raw } now).store =
        some (.failed, 0) := by
  intro st d j e raw now hd hj
  have hp := humanize_persist_spec st d j e raw now hd hj
  have hs := humanize_spec st { reply := .success (some e) raw } now
  refine ⟨hp.1, ?_, rfl, hp.2, ?_⟩
  · rw [hp.1]
    simp
  · rw [hs.2.2.1, hj]
    rfl

/--
Witness for C10: the rewriting call returns an essay with different
references, the stored humanized essay carries exactly the references of
the draft, and the run ends with the AttributeError failure.
-/
theorem humanize_preserves_references_witness :
    (humanize_essay cStoreDraft
        { reply := .success (some cEssayRewritten) "raw" } 0).store.humanized =
      some { cEssayRewritten with references := cEssay.references } ∧
    ((humanize_essay cStoreDraft
        { reply := .success (some cEssayRewritten) "raw" } 0).store.humanized.map
      EssayOutput.references) = some cEssay.references ∧
    (humanize_essay cStoreDraft { reply := .success (some cEssayRewritten) "raw" } 0).result =
      .failed (attributeErrorMsg "WAITING_FOR_REVIEW") := by
  have h := humanize_preserves_references cStoreDraft cEssay cJobHumanizing cEssayRewritten
    "raw" 0 rfl rfl
  exact ⟨h.1, h.2.1, h.2.2.2.1⟩
